import Mathlib

/-!
Shallow embedding of `src/modem-kick.c` (production build, i.e. `DEBUG` not
defined), a watchdog daemon that kicks cellular modems stuck in the
idle/denied registration state.

Modelling conventions:
* Bus object paths are opaque identifiers used only for equality (hash-table
  keys); they are modelled as `Nat`.
* GLib timer source ids (`g_timeout_add_seconds` results) are modelled as a
  caller-supplied `tid : Nat`; GLib guarantees a nonzero id, so theorems that
  need "a timer is armed" take `tid ≠ 0` as a hypothesis.  `next_id = 0`
  means "no pending timer", exactly as in the C code.
* `g_get_monotonic_time` values are `Int` microseconds; `timestamp = 0` is
  the sentinel for "not currently stuck", as in the C code.
* The `g_assert (modem_ctx->next_id == 0)` in `modem_schedule_op_state`
  aborts the process on failure; it is modelled by a sticky ghost flag
  `assertFailed` on the context.
* An asynchronous libmm call is modelled by the request event
  (`ExtCall`, returned by `modem_op_state_run`) and, separately, by running
  its completion callback with the boolean result of the `_finish` call.
  A call whose `GCancellable` was cancelled completes with
  `G_IO_ERROR_CANCELLED`, i.e. its `_finish` result is `false`.
-/

/-- `OpState` from modem-kick.c lines 109-115. -/
inductive OpState
  | none
  | disable
  | low_power
  | enable
  | finish
deriving DecidableEq

/-- `MMModem3gppRegistrationState` values the daemon distinguishes. -/
inductive RegState
  | idle
  | home
  | searching
  | denied
  | unknown
  | roaming
  | emergency_only
deriving DecidableEq

/-- The asynchronous libmm request issued by `modem_op_state_run`. -/
inductive ExtCall
  | disableCall
  | setPowerLowCall
  | enableCall
deriving DecidableEq

/-- `struct ModemContext` (lines 117-135).  `path` is the opaque bus path;
`timestamp` is the idle/denied monotonic timestamp (0 = sentinel);
`cancellable` the per-kick cancellation token (by id); `next_id` the pending
one-shot timer id (0 = none); `tries` the retry counter.  `assertFailed` is
a ghost flag recording that the `g_assert` in `modem_schedule_op_state`
tripped (process abort). -/
structure ModemContext where
  path : Nat
  timestamp : Int
  cancellable : Option Nat
  op_state : OpState
  next_id : Nat
  tries : Nat
  assertFailed : Bool
deriving DecidableEq

/-- `modem_context_new` (lines 143-154): all state zero-initialised
(`g_slice_new0`). -/
def modem_context_new (path : Nat) : ModemContext :=
  { path := path
    timestamp := 0
    cancellable := Option.none
    op_state := OpState.none
    next_id := 0
    tries := 0
    assertFailed := false }

/-- `modem_context_cancel_op` (lines 156-166): clears the op state, cancels
and drops the cancellable, removes any pending timer, resets the retry
counter. -/
def modem_context_cancel_op (m : ModemContext) : ModemContext :=
  { m with
    op_state := OpState.none
    cancellable := Option.none
    next_id := 0
    tries := 0 }

/-- `modem_context_free` (lines 168-173): cancels the op and releases the
context; the returned value is the context's state at the instant its memory
is released (in particular `next_id = 0`: the armed timer has been removed
by `g_source_remove`). -/
def modem_context_free (m : ModemContext) : ModemContext :=
  modem_context_cancel_op m

/-- The registration-state condition at line 183:
`reg_state == MM_MODEM_3GPP_REGISTRATION_STATE_IDLE || reg_state == MM_MODEM_3GPP_REGISTRATION_STATE_DENIED`. -/
def is_idle_or_denied : RegState → Bool
  | RegState.idle => true
  | RegState.denied => true
  | _ => false

/-- `modem_registration_changed` (lines 175-192): on idle/denied, set the
timestamp to `now` only if it is the sentinel; on any other state, reset it
to the sentinel. -/
def modem_registration_changed (now : Int) (reg : RegState) (m : ModemContext) : ModemContext :=
  if is_idle_or_denied reg then
    if m.timestamp = 0 then { m with timestamp := now } else m
  else
    { m with timestamp := 0 }

/-- `modem_schedule_op_state` (lines 373-381): set the new op state, assert
no timer is pending (`g_assert (modem_ctx->next_id == 0)` — modelled by the
sticky `assertFailed` flag), and arm the 10-second one-shot timer `tid`. -/
def modem_schedule_op_state (tid : Nat) (m : ModemContext) (new_state : OpState) : ModemContext :=
  { m with
    op_state := new_state
    assertFailed := m.assertFailed || decide (m.next_id ≠ 0)
    next_id := tid }

/-- `modem_schedule_retry_op_state` (lines 358-371): increment the retry
counter; if it exceeds 3 force the finish state, otherwise re-schedule the
same op state. -/
def modem_schedule_retry_op_state (tid : Nat) (m : ModemContext) : ModemContext :=
  let m1 : ModemContext := { m with tries := m.tries + 1 }
  if m1.tries > 3 then
    modem_schedule_op_state tid m1 OpState.finish
  else
    modem_schedule_op_state tid m1 m1.op_state

/-- `modem_enable_ready` (lines 383-397): on failure of
`mm_modem_enable_finish`, retry; on success, schedule finish. -/
def modem_enable_ready (tid : Nat) (ok : Bool) (m : ModemContext) : ModemContext :=
  if !ok then
    modem_schedule_retry_op_state tid m
  else
    modem_schedule_op_state tid m OpState.finish

/-- `set_power_state_low_ready` (lines 399-413): on failure, retry; on
success, schedule the enable step. -/
def set_power_state_low_ready (tid : Nat) (ok : Bool) (m : ModemContext) : ModemContext :=
  if !ok then
    modem_schedule_retry_op_state tid m
  else
    modem_schedule_op_state tid m OpState.enable

/-- `modem_disable_ready` (lines 415-430): on failure, retry; on success,
schedule `next_state = MODEM_OP_STATE_LOW_POWER`. -/
def modem_disable_ready (tid : Nat) (ok : Bool) (m : ModemContext) : ModemContext :=
  let next_state : OpState := OpState.low_power
  if !ok then
    modem_schedule_retry_op_state tid m
  else
    modem_schedule_op_state tid m next_state

/-- `modem_op_state_run` (lines 432-475): the timer callback.  Clears the
pending-timer id, then dispatches on the op state: `NONE` schedules the
disable step; `DISABLE`/`LOW_POWER`/`ENABLE` issue the corresponding
asynchronous libmm request (returned as the `Option ExtCall`); `FINISH`
releases the operation via `modem_context_cancel_op`. -/
def modem_op_state_run (tid : Nat) (m : ModemContext) : ModemContext × Option ExtCall :=
  let m1 : ModemContext := { m with next_id := 0 }
  match m1.op_state with
  | OpState.none => (modem_schedule_op_state tid m1 OpState.disable, Option.none)
  | OpState.disable => (m1, Option.some ExtCall.disableCall)
  | OpState.low_power => (m1, Option.some ExtCall.setPowerLowCall)
  | OpState.enable => (m1, Option.some ExtCall.enableCall)
  | OpState.finish => (modem_context_cancel_op m1, Option.none)

/-- `KICK_INTERVAL_SECONDS` (line 27, production build). -/
def KICK_INTERVAL_SECONDS : Int := 605

/-- `G_USEC_PER_SEC`. -/
def G_USEC_PER_SEC : Int := 1000000

/-- The kick condition of `reset_poll_cb` (line 499):
`time_failed > KICK_INTERVAL_SECONDS * G_USEC_PER_SEC` for a modem with a
non-sentinel timestamp (line 495). -/
def sweep_should_kick (now : Int) (m : ModemContext) : Bool :=
  decide (m.timestamp ≠ 0) && decide (now - m.timestamp > KICK_INTERVAL_SECONDS * G_USEC_PER_SEC)

/-- The kick action of `reset_poll_cb` (lines 504-506): cancel any existing
operation, create a fresh cancellable `tok`, and invoke `modem_op_state_run`
directly (which, from `MODEM_OP_STATE_NONE`, only arms the disable step
behind timer `tid`). -/
def sweep_start_kick (tid tok : Nat) (m : ModemContext) : ModemContext × Option ExtCall :=
  let m1 : ModemContext := modem_context_cancel_op m
  let m2 : ModemContext := { m1 with cancellable := Option.some tok }
  modem_op_state_run tid m2

/-- One modem's slice of `reset_poll_cb` (lines 485-512, production build:
no `DEBUG` timestamp override): skip a modem with the sentinel timestamp;
kick when the elapsed stuck time strictly exceeds the threshold; otherwise
do nothing. -/
def reset_poll_modem (tid tok : Nat) (now : Int) (m : ModemContext) : ModemContext × Option ExtCall :=
  if m.timestamp = 0 then
    (m, Option.none)
  else if now - m.timestamp > KICK_INTERVAL_SECONDS * G_USEC_PER_SEC then
    sweep_start_kick tid tok m
  else
    (m, Option.none)

/-! ## The registry (`ctx->modems` hash table) and object add/remove -/

/-- The `modems` hash table: bus path → per-modem context. -/
abbrev Registry := List (Nat × ModemContext)

/-- Hash-table lookup by path key. -/
def registry_lookup : Registry → Nat → Option ModemContext
  | [], _ => Option.none
  | e :: rest, p => if e.1 = p then Option.some e.2 else registry_lookup rest p

/-- Hash-table key erasure (used by both insert-replace and remove). -/
def registry_erase : Registry → Nat → Registry
  | [], _ => []
  | e :: rest, p => if e.1 = p then registry_erase rest p else e :: registry_erase rest p

/-- An `MMModem` interface handle: the daemon only queries its primary port
(opaque; only presence matters). -/
structure MMModemIface where
  primary_port : Option Nat
deriving DecidableEq

/-- An `MMModem3gpp` interface handle: the daemon reads its current
registration state. -/
structure MMModem3gppIface where
  registration_state : RegState
deriving DecidableEq

/-- An `MMObject` as the add path sees it: path, optional Modem interface
(`mm_object_peek_modem`), optional 3GPP interface
(`mm_object_peek_modem_3gpp`). -/
structure MMObjectModel where
  path : Nat
  modem : Option MMModemIface
  modem_3gpp : Option MMModem3gppIface
deriving DecidableEq

/-- `handle_object_added` (lines 198-238): reject a modem without the Modem
interface, without a primary port, or without the 3GPP interface (no entry
created); otherwise create a context, seed its stuck state by evaluating the
current registration state once, and insert it keyed by path
(`g_hash_table_insert` replaces any entry under the same key). -/
def handle_object_added (now : Int) (reg : Registry) (obj : MMObjectModel) : Registry :=
  match obj.modem with
  | Option.none => reg
  | Option.some modem_iface =>
    if modem_iface.primary_port = Option.none then reg
    else
      match obj.modem_3gpp with
      | Option.none => reg
      | Option.some m3gpp =>
        let ctx := modem_context_new obj.path
        let ctx := modem_registration_changed now m3gpp.registration_state ctx
        (obj.path, ctx) :: registry_erase reg obj.path

/-- `handle_object_removed` (lines 240-247): `g_hash_table_remove` by path;
the removed entry's context is destroyed via `modem_context_free` (the
hash table's value destroy notify chain). -/
def handle_object_removed (reg : Registry) (p : Nat) : Registry :=
  registry_erase reg p

/-! ## Drivers: one kick operation consuming a sequence of step outcomes -/

/-- Whether the op state issues an external call when its timer fires. -/
def op_active : OpState → Bool
  | OpState.disable => true
  | OpState.low_power => true
  | OpState.enable => true
  | _ => false

/-- The successor step on success (verification helper summarising the
success branches of the three completion callbacks). -/
def kick_next : OpState → OpState
  | OpState.disable => OpState.low_power
  | OpState.low_power => OpState.enable
  | OpState.enable => OpState.finish
  | s => s

/-- One full step cycle of an active op: the pending timer fires
(`modem_op_state_run`, which issues the step's request), then that request's
completion callback runs with `_finish` result `ok`. -/
def step_cycle (tid : Nat) (m : ModemContext) (ok : Bool) : ModemContext :=
  let m1 : ModemContext := (modem_op_state_run tid m).1
  match m.op_state with
  | OpState.disable => modem_disable_ready tid ok m1
  | OpState.low_power => set_power_state_low_ready tid ok m1
  | OpState.enable => modem_enable_ready tid ok m1
  | _ => m1

/-- Consume a list of step outcomes while the op is in an active step. -/
def kick_steps (tid : Nat) : ModemContext → List Bool → ModemContext
  | m, [] => m
  | m, ok :: rest =>
    if op_active m.op_state then kick_steps tid (step_cycle tid m ok) rest else m

/-- `kick_consumes tid m outs` holds when the op actually experiences every
outcome in `outs` (it is still in an active, call-issuing step when each
outcome arrives). -/
def kick_consumes (tid : Nat) : ModemContext → List Bool → Bool
  | _, [] => true
  | m, ok :: rest => op_active m.op_state && kick_consumes tid (step_cycle tid m ok) rest

/-- Consume the outcomes, then, if the op was left scheduled for `FINISH`,
fire the final timer (`modem_op_state_run` on `FINISH` releases the op). -/
def kick_run (tid : Nat) (m : ModemContext) (outs : List Bool) : ModemContext :=
  let m1 := kick_steps tid m outs
  if m1.op_state = OpState.finish then (modem_op_state_run tid m1).1 else m1

/-- Number of failed step outcomes in a sequence. -/
def count_failures : List Bool → Nat
  | [] => 0
  | b :: rest => (if b then 0 else 1) + count_failures rest

/-- The released (no-operation) context state: op state cleared, retry
counter reset, cancellable dropped, no pending timer. -/
def op_released (m : ModemContext) : Prop :=
  m.op_state = OpState.none ∧ m.tries = 0 ∧ m.cancellable = Option.none ∧ m.next_id = 0

instance (m : ModemContext) : Decidable (op_released m) := by
  unfold op_released; infer_instance

/-- Fold a sequence of registration-state notifications, each a
`(monotonic time, reported state)` pair, through
`modem_registration_changed`. -/
def reg_fold (evs : List (Int × RegState)) (m : ModemContext) : ModemContext :=
  evs.foldl (fun acc e => modem_registration_changed e.1 e.2 acc) m

/-- Verification helper summarising the three eligibility checks of
`handle_object_added`: has the Modem interface, has a primary port, has the
3GPP interface. -/
def modem_eligible (obj : MMObjectModel) : Bool :=
  match obj.modem with
  | Option.none => false
  | Option.some mi => decide (mi.primary_port ≠ Option.none) && obj.modem_3gpp.isSome

/-! ## Concrete contexts used by closed theorems and witnesses -/

/-- A kick operation as the sweep just started it: disable step armed behind
timer 1, fresh cancellable, zero retries, stuck since time 5. -/
def ex_kick_start : ModemContext :=
  { path := 7
    timestamp := 5
    cancellable := Option.some 1
    op_state := OpState.disable
    next_id := 1
    tries := 0
    assertFailed := false }

/-- A kick operation cancelled (by a sweep restart or by modem removal)
while its disable call was in flight: at cancel time the step timer had
already fired (`next_id = 0`) and the call was outstanding. -/
def cancelled_op_example : ModemContext :=
  modem_context_cancel_op
    { path := 7
      timestamp := 5
      cancellable := Option.some 1
      op_state := OpState.disable
      next_id := 0
      tries := 2
      assertFailed := false }

/-- Trace for the timer-invariant violation: a modem observed idle at
monotonic time 5. -/
def c7_start : ModemContext :=
  modem_registration_changed 5 RegState.idle (modem_context_new 7)

/-- First sweep tick past the threshold: starts a kick (disable armed behind
timer 1, cancellable 10). -/
def c7_sweep1 : ModemContext × Option ExtCall :=
  reset_poll_modem 1 10 (5 + KICK_INTERVAL_SECONDS * G_USEC_PER_SEC + 1) c7_start

/-- The 10-second step timer fires: the disable request goes out, no timer
pending while it is in flight. -/
def c7_fire1 : ModemContext × Option ExtCall :=
  modem_op_state_run 2 c7_sweep1.1

/-- The next sweep tick, one poll period later, while the disable call is
still in flight: the modem is still stuck (its timestamp was never touched),
so the sweep cancels the operation and restarts it, arming timer 3 with
fresh cancellable 11. -/
def c7_sweep2 : ModemContext × Option ExtCall :=
  reset_poll_modem 3 11
    (5 + KICK_INTERVAL_SECONDS * G_USEC_PER_SEC + 1 + 300 * G_USEC_PER_SEC) c7_fire1.1

/-- The cancelled disable call now completes (`_finish` fails with
`G_IO_ERROR_CANCELLED`) and its completion callback runs. -/
def c7_stale_cb : ModemContext :=
  modem_disable_ready 4 false c7_sweep2.1

/-- Registry example entry used by witnesses. -/
def ex_registry : Registry := [(3, ex_kick_start), (8, c7_start)]

/-- An eligible modem object: Modem interface with a primary port, and a
3GPP interface currently reporting idle. -/
def ex_obj_good : MMObjectModel :=
  { path := 4
    modem := Option.some { primary_port := Option.some 0 }
    modem_3gpp := Option.some { registration_state := RegState.idle } }

/-- A modem object lacking a primary port. -/
def ex_obj_no_port : MMObjectModel :=
  { path := 4
    modem := Option.some { primary_port := Option.none }
    modem_3gpp := Option.some { registration_state := RegState.idle } }

/-- A kick operation scheduled for the terminal finish step. -/
def ex_finish_ctx : ModemContext :=
  { ex_kick_start with op_state := OpState.finish }

/-! ## Helper lemmas: projections of the state-machine functions -/

@[simp] theorem schedule_op_state_eq (tid : Nat) (m : ModemContext) (s : OpState) :
    (modem_schedule_op_state tid m s).op_state = s := rfl

@[simp] theorem schedule_tries_eq (tid : Nat) (m : ModemContext) (s : OpState) :
    (modem_schedule_op_state tid m s).tries = m.tries := rfl

@[simp] theorem schedule_timestamp_eq (tid : Nat) (m : ModemContext) (s : OpState) :
    (modem_schedule_op_state tid m s).timestamp = m.timestamp := rfl

@[simp] theorem schedule_next_id_eq (tid : Nat) (m : ModemContext) (s : OpState) :
    (modem_schedule_op_state tid m s).next_id = tid := rfl

@[simp] theorem schedule_cancellable_eq (tid : Nat) (m : ModemContext) (s : OpState) :
    (modem_schedule_op_state tid m s).cancellable = m.cancellable := rfl

theorem retry_tries_eq (tid : Nat) (m : ModemContext) :
    (modem_schedule_retry_op_state tid m).tries = m.tries + 1 := by
  unfold modem_schedule_retry_op_state
  by_cases h : m.tries + 1 > 3 <;> simp [h]

theorem retry_op_state_eq (tid : Nat) (m : ModemContext) :
    (modem_schedule_retry_op_state tid m).op_state =
      if m.tries + 1 > 3 then OpState.finish else m.op_state := by
  unfold modem_schedule_retry_op_state
  by_cases h : m.tries + 1 > 3 <;> simp [h]

theorem retry_timestamp_eq (tid : Nat) (m : ModemContext) :
    (modem_schedule_retry_op_state tid m).timestamp = m.timestamp := by
  unfold modem_schedule_retry_op_state
  by_cases h : m.tries + 1 > 3 <;> simp [h]

theorem retry_next_id_eq (tid : Nat) (m : ModemContext) :
    (modem_schedule_retry_op_state tid m).next_id = tid := by
  unfold modem_schedule_retry_op_state
  by_cases h : m.tries + 1 > 3 <;> simp [h]

theorem retry_cancellable_eq (tid : Nat) (m : ModemContext) :
    (modem_schedule_retry_op_state tid m).cancellable = m.cancellable := by
  unfold modem_schedule_retry_op_state
  by_cases h : m.tries + 1 > 3 <;> simp [h]

theorem step_cycle_op_state (tid : Nat) (m : ModemContext) (ok : Bool)
    (h : op_active m.op_state = true) :
    (step_cycle tid m ok).op_state =
      if ok then kick_next m.op_state
      else if m.tries + 1 > 3 then OpState.finish else m.op_state := by
  cases hm : m.op_state <;> simp [op_active, hm] at h <;>
    cases ok <;>
      simp [step_cycle, modem_op_state_run, hm, kick_next, modem_disable_ready,
        set_power_state_low_ready, modem_enable_ready, retry_op_state_eq]

theorem step_cycle_tries (tid : Nat) (m : ModemContext) (ok : Bool)
    (h : op_active m.op_state = true) :
    (step_cycle tid m ok).tries = if ok then m.tries else m.tries + 1 := by
  cases hm : m.op_state <;> simp [op_active, hm] at h <;>
    cases ok <;>
      simp [step_cycle, modem_op_state_run, hm, modem_disable_ready,
        set_power_state_low_ready, modem_enable_ready, retry_tries_eq]

theorem step_cycle_timestamp (tid : Nat) (m : ModemContext) (ok : Bool) :
    (step_cycle tid m ok).timestamp = m.timestamp := by
  cases hm : m.op_state <;>
    cases ok <;>
      simp [step_cycle, modem_op_state_run, hm, modem_disable_ready,
        set_power_state_low_ready, modem_enable_ready, retry_timestamp_eq,
        modem_context_cancel_op]

theorem step_cycle_next_id (tid : Nat) (m : ModemContext) (ok : Bool)
    (h : op_active m.op_state = true) :
    (step_cycle tid m ok).next_id = tid := by
  cases hm : m.op_state <;> simp [op_active, hm] at h <;>
    cases ok <;>
      simp [step_cycle, modem_op_state_run, hm, modem_disable_ready,
        set_power_state_low_ready, modem_enable_ready, retry_next_id_eq]

theorem step_cycle_cancellable (tid : Nat) (m : ModemContext) (ok : Bool)
    (h : op_active m.op_state = true) :
    (step_cycle tid m ok).cancellable = m.cancellable := by
  cases hm : m.op_state <;> simp [op_active, hm] at h <;>
    cases ok <;>
      simp [step_cycle, modem_op_state_run, hm, modem_disable_ready,
        set_power_state_low_ready, modem_enable_ready, retry_cancellable_eq]

theorem run_finish_releases (tid : Nat) (m : ModemContext) (h : m.op_state = OpState.finish) :
    op_released (modem_op_state_run tid m).1 ∧ (modem_op_state_run tid m).2 = Option.none := by
  constructor <;> simp [modem_op_state_run, h, modem_context_cancel_op, op_released]

theorem run_timestamp_eq (tid : Nat) (m : ModemContext) :
    ((modem_op_state_run tid m).1).timestamp = m.timestamp := by
  cases h : m.op_state <;> simp [modem_op_state_run, h, modem_context_cancel_op]

theorem kick_consumes_append (tid : Nat) :
    ∀ (l1 l2 : List Bool) (m : ModemContext),
      kick_consumes tid m (l1 ++ l2) = true → kick_consumes tid m l1 = true := by
  intro l1
  induction l1 with
  | nil => intro l2 m _; rfl
  | cons ok rest ih =>
    intro l2 m h
    simp [kick_consumes] at h ⊢
    exact ⟨h.1, ih l2 _ h.2⟩

theorem kick_steps_tries_count (tid : Nat) :
    ∀ (outs : List Bool) (m : ModemContext),
      kick_consumes tid m outs = true →
      (kick_steps tid m outs).tries = m.tries + count_failures outs := by
  intro outs
  induction outs with
  | nil => intro m _; simp [kick_steps, count_failures]
  | cons ok rest ih =>
    intro m hc
    simp [kick_consumes] at hc
    obtain ⟨ha, hrest⟩ := hc
    rw [show kick_steps tid m (ok :: rest) = kick_steps tid (step_cycle tid m ok) rest by
          simp [kick_steps, ha]]
    rw [ih _ hrest, step_cycle_tries tid m ok ha]
    cases ok <;> simp [count_failures] <;> omega

theorem kick_steps_timestamp (tid : Nat) :
    ∀ (outs : List Bool) (m : ModemContext),
      (kick_steps tid m outs).timestamp = m.timestamp := by
  intro outs
  induction outs with
  | nil => intro m; rfl
  | cons ok rest ih =>
    intro m
    cases ha : op_active m.op_state
    · simp [kick_steps, ha]
    · simp [kick_steps, ha, ih, step_cycle_timestamp]

theorem kick_steps_exhaust (tid : Nat) :
    ∀ (outs : List Bool) (m : ModemContext),
      op_active m.op_state = true →
      kick_consumes tid m outs = true →
      m.tries + count_failures outs = 4 →
      m.tries ≤ 3 →
      (kick_steps tid m outs).op_state = OpState.finish ∧
      (kick_steps tid m outs).tries = 4 := by
  intro outs
  induction outs with
  | nil =>
    intro m hact hc hcount htr
    exfalso
    simp [count_failures] at hcount
    omega
  | cons ok rest ih =>
    intro m hact hc hcount htr
    simp [kick_consumes, hact] at hc
    rw [show kick_steps tid m (ok :: rest) = kick_steps tid (step_cycle tid m ok) rest by
          simp [kick_steps, hact]]
    have hst := step_cycle_op_state tid m ok hact
    have htr2 := step_cycle_tries tid m ok hact
    cases ok with
    | true =>
      simp at hst htr2
      simp [count_failures] at hcount
      cases hm : m.op_state with
      | disable =>
        exact ih _ (by rw [hst, hm]; rfl) hc (by rw [htr2]; omega) (by omega)
      | low_power =>
        exact ih _ (by rw [hst, hm]; rfl) hc (by rw [htr2]; omega) (by omega)
      | enable =>
        exfalso
        cases rest with
        | nil => simp [count_failures] at hcount; omega
        | cons r rs =>
          have hfin : (step_cycle tid m true).op_state = OpState.finish := by
            rw [hst, hm]; rfl
          simp [kick_consumes, hfin, op_active] at hc
      | none => simp [op_active, hm] at hact
      | finish => simp [op_active, hm] at hact
    | false =>
      simp at hst htr2
      simp [count_failures] at hcount
      by_cases hb : m.tries + 1 > 3
      · have htries4 : m.tries = 3 := by omega
        have hfin : (step_cycle tid m false).op_state = OpState.finish := by
          rw [hst]; simp [hb]
        cases rest with
        | nil =>
          refine ⟨hfin, ?_⟩
          show (step_cycle tid m false).tries = 4
          rw [htr2]; omega
        | cons r rs =>
          exfalso
          simp [kick_consumes, hfin, op_active] at hc
      · have hsame : (step_cycle tid m false).op_state = m.op_state := by
          rw [hst]; simp [hb]
        exact ih _ (by rw [hsame]; exact hact) hc (by rw [htr2]; omega)
          (by rw [htr2]; omega)

theorem reg_changed_timestamp_eq (now : Int) (reg : RegState) (m : ModemContext) :
    (modem_registration_changed now reg m).timestamp =
      if is_idle_or_denied reg then (if m.timestamp = 0 then now else m.timestamp) else 0 := by
  unfold modem_registration_changed
  by_cases h1 : is_idle_or_denied reg = true <;> by_cases h2 : m.timestamp = 0 <;>
    simp [h1, h2]

theorem reg_changed_stuck_iff (now : Int) (reg : RegState) (m : ModemContext) (hpos : 0 < now) :
    ((modem_registration_changed now reg m).timestamp ≠ 0 ↔ is_idle_or_denied reg = true) := by
  rw [reg_changed_timestamp_eq]
  by_cases h1 : is_idle_or_denied reg = true <;> by_cases h2 : m.timestamp = 0 <;>
    simp [h1, h2] <;> omega

theorem registry_lookup_erase_self (reg : Registry) (p : Nat) :
    registry_lookup (registry_erase reg p) p = Option.none := by
  induction reg with
  | nil => rfl
  | cons e rest ih =>
    by_cases h : e.1 = p <;> simp [registry_erase, registry_lookup, h, ih]

theorem registry_lookup_erase_other (reg : Registry) (p q : Nat) (h : q ≠ p) :
    registry_lookup (registry_erase reg p) q = registry_lookup reg q := by
  have hpq : ¬ p = q := fun hpq => h hpq.symm
  induction reg with
  | nil => rfl
  | cons e rest ih =>
    by_cases he : e.1 = p
    · have hne : ¬ e.1 = q := by intro hq; omega
      simp [registry_erase, registry_lookup, he, hne, hpq, ih]
    · by_cases heq : e.1 = q <;>
        simp [registry_erase, registry_lookup, he, heq, h, hpq, ih]

theorem registry_erase_absent (reg : Registry) (q : Nat)
    (h : registry_lookup reg q = Option.none) : registry_erase reg q = reg := by
  induction reg with
  | nil => rfl
  | cons e rest ih =>
    by_cases he : e.1 = q
    · simp [registry_lookup, he] at h
    · simp [registry_lookup, he] at h
      simp [registry_erase, he, ih h]

theorem sweep_start_kick_eq (tid tok : Nat) (m : ModemContext) :
    (sweep_start_kick tid tok m).1 =
      { m with
        op_state := OpState.disable
        cancellable := Option.some tok
        next_id := tid
        tries := 0 } ∧
    (sweep_start_kick tid tok m).2 = Option.none := by
  constructor <;>
    simp [sweep_start_kick, modem_context_cancel_op, modem_op_state_run,
      modem_schedule_op_state]

theorem kick_run_timestamp (tid : Nat) (outs : List Bool) (m : ModemContext) :
    (kick_run tid m outs).timestamp = m.timestamp := by
  unfold kick_run
  by_cases hf : (kick_steps tid m outs).op_state = OpState.finish <;>
    simp [hf, run_timestamp_eq, kick_steps_timestamp]

/-- C1: for every kick operation, the retry counter counts every failure of
the current step and is never reset when the operation moves to a different
step (after any consumed prefix it equals the number of failures so far);
for any fully-experienced sequence of step outcomes containing exactly 4
failures, in any mix of disable/low-power/enable steps, the 4th failure
drives the counter to 4 > 3 and forces the operation to the finish state,
whose timer firing releases it (op state cleared, counter reset,
cancellable dropped). -/
theorem C1_whole_op_retry_budget (tid : Nat) (m : ModemContext) (outs : List Bool)
    (hact : op_active m.op_state = true)
    (htries : m.tries = 0)
    (hcons : kick_consumes tid m outs = true)
    (hfail : count_failures outs = 4) :
    (∀ k : Nat, (kick_steps tid m (outs.take k)).tries = count_failures (outs.take k)) ∧
    (kick_steps tid m outs).op_state = OpState.finish ∧
    (kick_steps tid m outs).tries = 4 ∧
    op_released (kick_run tid m outs) := by
  have hfin := kick_steps_exhaust tid outs m hact hcons (by omega) (by omega)
  refine ⟨?_, hfin.1, hfin.2, ?_⟩
  · intro k
    have hpre : kick_consumes tid m (outs.take k) = true := by
      apply kick_consumes_append tid (outs.take k) (outs.drop k) m
      rw [List.take_append_drop]
      exact hcons
    rw [kick_steps_tries_count tid _ m hpre, htries]
    omega
  · show op_released
      (if (kick_steps tid m outs).op_state = OpState.finish
       then (modem_op_state_run tid (kick_steps tid m outs)).1
       else kick_steps tid m outs)
    rw [if_pos hfin.1]
    exact (run_finish_releases tid _ hfin.1).1

/-- Witness for C1: a freshly started kick consuming the outcome sequence
fail, succeed, fail, fail, succeed, fail (4 failures spread over the
disable, low-power and enable steps). -/
theorem C1_whole_op_retry_budget_witness :
    (∀ k : Nat,
       (kick_steps 2 ex_kick_start ([false, true, false, false, true, false].take k)).tries =
         count_failures ([false, true, false, false, true, false].take k)) ∧
    (kick_steps 2 ex_kick_start [false, true, false, false, true, false]).op_state
      = OpState.finish ∧
    (kick_steps 2 ex_kick_start [false, true, false, false, true, false]).tries = 4 ∧
    op_released (kick_run 2 ex_kick_start [false, true, false, false, true, false]) :=
  C1_whole_op_retry_budget 2 ex_kick_start [false, true, false, false, true, false]
    (by decide) (by decide) (by decide) (by decide)

/-- C2: after each notification of a sequence delivered at positive
monotonic times, the stuck timestamp is non-sentinel iff the most recently
observed registration state is idle or denied; moreover (single-step
equation) an existing non-sentinel timestamp is never overwritten by a later
idle/denied notification, and any other state resets it to the sentinel
unconditionally. -/
theorem C2_stuck_iff_idle_or_denied (m0 : ModemContext)
    (evs : List (Int × RegState)) (hpos : ∀ e ∈ evs, 0 < e.1)
    (k : Nat) (hk : k < evs.length) :
    ((reg_fold (evs.take (k + 1)) m0).timestamp ≠ 0 ↔
       is_idle_or_denied (evs.get ⟨k, hk⟩).2 = true) ∧
    (∀ (now : Int) (reg : RegState) (m : ModemContext),
       (modem_registration_changed now reg m).timestamp =
         if is_idle_or_denied reg then (if m.timestamp = 0 then now else m.timestamp)
         else 0) := by
  constructor
  · have htake : evs.take (k + 1) = evs.take k ++ [evs.get ⟨k, hk⟩] := by
      rw [← List.take_concat_get' evs k hk]
      rfl
    rw [htake]
    unfold reg_fold
    rw [List.foldl_append]
    simp only [List.foldl_cons, List.foldl_nil]
    exact reg_changed_stuck_iff _ _ _ (hpos _ (evs.get_mem k hk))
  · exact fun now reg m => reg_changed_timestamp_eq now reg m

/-- Witness for C2: the sequence idle at time 5, registered-home at time 6,
denied at time 9, checked after the third notification. -/
theorem C2_stuck_iff_idle_or_denied_witness :
    ((reg_fold
        ([((5 : Int), RegState.idle), ((6 : Int), RegState.home),
          ((9 : Int), RegState.denied)].take (2 + 1))
        (modem_context_new 1)).timestamp ≠ 0 ↔
       is_idle_or_denied RegState.denied = true) ∧
    (∀ (now : Int) (reg : RegState) (m : ModemContext),
       (modem_registration_changed now reg m).timestamp =
         if is_idle_or_denied reg then (if m.timestamp = 0 then now else m.timestamp)
         else 0) :=
  C2_stuck_iff_idle_or_denied (modem_context_new 1)
    [((5 : Int), RegState.idle), ((6 : Int), RegState.home), ((9 : Int), RegState.denied)]
    (by decide) 2 (by decide)

/-- C3 (refuted — code bug): the completion callback of a cancelled call is
not a no-op.  `cancelled_op_example` is a kick operation already cancelled
and released while its disable call was in flight; the cancelled call then
completes with a failed `_finish` result, and `modem_disable_ready` — which
contains no cancellation check — increments the retry counter to 1, arms a
fresh 10-second timer (id 9), and leaves the op state `NONE`, from which the
armed timer later restarts a whole kick (`NONE → DISABLE`). -/
theorem C3_cancelled_callback_still_acts :
    op_released cancelled_op_example ∧
    (modem_disable_ready 9 false cancelled_op_example).tries = 1 ∧
    (modem_disable_ready 9 false cancelled_op_example).next_id = 9 ∧
    (modem_disable_ready 9 false cancelled_op_example).op_state = OpState.none ∧
    (modem_op_state_run 11 (modem_disable_ready 9 false cancelled_op_example)).1.op_state
      = OpState.disable := by
  decide

/-- C4: the steps succeed in the fixed order disable → low_power → enable →
finish: each success callback schedules exactly the next step behind a
timer, and finish is terminal — running it issues no external call and
releases the operation. -/
theorem C4_step_order (tid : Nat) (m mf : ModemContext) (htid : tid ≠ 0)
    (hmf : mf.op_state = OpState.finish) :
    (modem_disable_ready tid true m).op_state = OpState.low_power ∧
    (modem_disable_ready tid true m).next_id = tid ∧
    (set_power_state_low_ready tid true m).op_state = OpState.enable ∧
    (set_power_state_low_ready tid true m).next_id = tid ∧
    (modem_enable_ready tid true m).op_state = OpState.finish ∧
    (modem_enable_ready tid true m).next_id = tid ∧
    (modem_op_state_run tid mf).2 = Option.none ∧
    op_released (modem_op_state_run tid mf).1 := by
  refine ⟨rfl, rfl, rfl, rfl, rfl, rfl, ?_, ?_⟩
  · exact (run_finish_releases tid mf hmf).2
  · exact (run_finish_releases tid mf hmf).1

/-- Witness for C4 at a live kick context and a finish-scheduled context. -/
theorem C4_step_order_witness :
    (modem_disable_ready 5 true ex_kick_start).op_state = OpState.low_power ∧
    (modem_disable_ready 5 true ex_kick_start).next_id = 5 ∧
    (set_power_state_low_ready 5 true ex_kick_start).op_state = OpState.enable ∧
    (set_power_state_low_ready 5 true ex_kick_start).next_id = 5 ∧
    (modem_enable_ready 5 true ex_kick_start).op_state = OpState.finish ∧
    (modem_enable_ready 5 true ex_kick_start).next_id = 5 ∧
    (modem_op_state_run 5 ex_finish_ctx).2 = Option.none ∧
    op_released (modem_op_state_run 5 ex_finish_ctx).1 :=
  C4_step_order 5 ex_kick_start ex_finish_ctx (by decide) (by decide)

/-- C5: for a modem with a non-sentinel stuck timestamp, a sweep tick whose
elapsed stuck time equals the kick threshold exactly does not kick (the
sweep leaves the modem untouched and issues nothing), while elapsed one
microsecond greater does kick (the comparison is strict greater-than). -/
theorem C5_threshold_boundary (tid tok : Nat) (m : ModemContext) (h : m.timestamp ≠ 0) :
    sweep_should_kick (m.timestamp + KICK_INTERVAL_SECONDS * G_USEC_PER_SEC) m = false ∧
    reset_poll_modem tid tok (m.timestamp + KICK_INTERVAL_SECONDS * G_USEC_PER_SEC) m
      = (m, Option.none) ∧
    sweep_should_kick (m.timestamp + KICK_INTERVAL_SECONDS * G_USEC_PER_SEC + 1) m = true ∧
    (reset_poll_modem tid tok (m.timestamp + KICK_INTERVAL_SECONDS * G_USEC_PER_SEC + 1)
        m).1.op_state = OpState.disable := by
  have he1 : m.timestamp + KICK_INTERVAL_SECONDS * G_USEC_PER_SEC - m.timestamp
      = KICK_INTERVAL_SECONDS * G_USEC_PER_SEC := by ring
  have he2 : m.timestamp + KICK_INTERVAL_SECONDS * G_USEC_PER_SEC + 1 - m.timestamp
      = KICK_INTERVAL_SECONDS * G_USEC_PER_SEC + 1 := by ring
  have hgt : KICK_INTERVAL_SECONDS * G_USEC_PER_SEC + 1
      > KICK_INTERVAL_SECONDS * G_USEC_PER_SEC := by omega
  refine ⟨?_, ?_, ?_, ?_⟩
  · simp [sweep_should_kick, he1]
  · simp [reset_poll_modem, h, he1]
  · simp [sweep_should_kick, h, he2]
  · simp [reset_poll_modem, h, he2, hgt, (sweep_start_kick_eq tid tok m).1]

/-- Witness for C5 at a modem stuck since monotonic time 5. -/
theorem C5_threshold_boundary_witness :
    sweep_should_kick (ex_kick_start.timestamp + KICK_INTERVAL_SECONDS * G_USEC_PER_SEC)
      ex_kick_start = false ∧
    reset_poll_modem 1 2 (ex_kick_start.timestamp + KICK_INTERVAL_SECONDS * G_USEC_PER_SEC)
      ex_kick_start = (ex_kick_start, Option.none) ∧
    sweep_should_kick (ex_kick_start.timestamp + KICK_INTERVAL_SECONDS * G_USEC_PER_SEC + 1)
      ex_kick_start = true ∧
    (reset_poll_modem 1 2
        (ex_kick_start.timestamp + KICK_INTERVAL_SECONDS * G_USEC_PER_SEC + 1)
        ex_kick_start).1.op_state = OpState.disable :=
  C5_threshold_boundary 1 2 ex_kick_start (by decide)

/-- C6: when the sweep decides to kick, it first cancels any existing kick
operation (clearing the retry counter, the pending timer and the
cancellation token) and then starts a fresh operation at the disable step
with a new cancellable; the fresh step is only armed behind a timer — the
sweep issues no external call synchronously and so never waits on one. -/
theorem C6_sweep_restarts_fresh (tid tok : Nat) (m : ModemContext) (htid : tid ≠ 0) :
    op_released (modem_context_cancel_op m) ∧
    (sweep_start_kick tid tok m).2 = Option.none ∧
    (sweep_start_kick tid tok m).1.op_state = OpState.disable ∧
    (sweep_start_kick tid tok m).1.tries = 0 ∧
    (sweep_start_kick tid tok m).1.cancellable = Option.some tok ∧
    (sweep_start_kick tid tok m).1.next_id = tid ∧
    tid ≠ 0 := by
  have hs := sweep_start_kick_eq tid tok m
  refine ⟨?_, hs.2, ?_, ?_, ?_, ?_, htid⟩ <;>
    simp [modem_context_cancel_op, op_released, hs.1]

/-- Witness for C6 at a context with a kick already in flight. -/
theorem C6_sweep_restarts_fresh_witness :
    op_released (modem_context_cancel_op ex_kick_start) ∧
    (sweep_start_kick 4 9 ex_kick_start).2 = Option.none ∧
    (sweep_start_kick 4 9 ex_kick_start).1.op_state = OpState.disable ∧
    (sweep_start_kick 4 9 ex_kick_start).1.tries = 0 ∧
    (sweep_start_kick 4 9 ex_kick_start).1.cancellable = Option.some 9 ∧
    (sweep_start_kick 4 9 ex_kick_start).1.next_id = 4 ∧
    (4 : Nat) ≠ 0 :=
  C6_sweep_restarts_fresh 4 9 ex_kick_start (by decide)

/-- C7 (refuted — code bug): the `g_assert (next_id == 0)` in
`modem_schedule_op_state` does not hold on every reachable call.  Reachable
trace: a sweep past the threshold starts a kick; the 10-second timer fires
and issues the disable call; one poll period later the modem is still stuck
(its timestamp was never touched), so the next sweep cancels the in-flight
operation and restarts it, arming a new timer; the cancelled disable call
then completes with a failed `_finish`, and its callback's retry path calls
`modem_schedule_op_state` while the fresh kick's timer is pending
(`next_id = 3 ≠ 0`) — the assertion fails and the process aborts. -/
theorem C7_double_timer_assertion_trip :
    c7_start.timestamp = 5 ∧
    c7_sweep1.1.op_state = OpState.disable ∧
    c7_sweep1.1.next_id = 1 ∧
    c7_fire1.2 = Option.some ExtCall.disableCall ∧
    c7_fire1.1.next_id = 0 ∧
    c7_sweep2.1.op_state = OpState.disable ∧
    c7_sweep2.1.next_id = 3 ∧
    c7_sweep2.1.assertFailed = false ∧
    c7_stale_cb.assertFailed = true := by
  decide

/-- C8: removing a present modem erases its registry entry (other keys are
untouched), and its context is destroyed through `modem_context_free`, which
cancels the kick operation — in particular the armed step timer is removed
(`next_id = 0` at free time), so no timer of the removed modem can fire
afterwards, and the erased registry cannot be resurrected by one; removing
an absent identity leaves the registry unchanged. -/
theorem C8_remove_cancels_kick (reg : Registry) (p : Nat) (m : ModemContext)
    (h : registry_lookup reg p = Option.some m) :
    registry_lookup (handle_object_removed reg p) p = Option.none ∧
    (∀ q, q ≠ p →
       registry_lookup (handle_object_removed reg p) q = registry_lookup reg q) ∧
    op_released (modem_context_free m) ∧
    (modem_context_free m).next_id = 0 ∧
    (∀ (reg2 : Registry) (q : Nat),
       registry_lookup reg2 q = Option.none → handle_object_removed reg2 q = reg2) := by
  refine ⟨?_, ?_, ?_, rfl, ?_⟩
  · exact registry_lookup_erase_self reg p
  · exact fun q hq => registry_lookup_erase_other reg p q hq
  · simp [modem_context_free, modem_context_cancel_op, op_released]
  · exact fun reg2 q hq => registry_erase_absent reg2 q hq

/-- Witness for C8: removing modem 3 (mid-kick) from a two-entry registry. -/
theorem C8_remove_cancels_kick_witness :
    registry_lookup (handle_object_removed ex_registry 3) 3 = Option.none ∧
    (∀ q, q ≠ 3 →
       registry_lookup (handle_object_removed ex_registry 3) q
         = registry_lookup ex_registry q) ∧
    op_released (modem_context_free ex_kick_start) ∧
    (modem_context_free ex_kick_start).next_id = 0 ∧
    (∀ (reg2 : Registry) (q : Nat),
       registry_lookup reg2 q = Option.none → handle_object_removed reg2 q = reg2) :=
  C8_remove_cancels_kick ex_registry 3 ex_kick_start (by decide)

/-- C9: the add path creates no registry entry for a modem lacking the basic
Modem interface, a primary port, or the 3GPP interface (the registry is
returned unchanged); a modem passing all three checks is inserted keyed by
its path, leaving every other key unaffected. -/
theorem C9_add_eligibility (now : Int) (reg : Registry) (obj : MMObjectModel) :
    if modem_eligible obj = true then
      registry_lookup (handle_object_added now reg obj) obj.path ≠ Option.none ∧
      (∀ q, q ≠ obj.path →
         registry_lookup (handle_object_added now reg obj) q = registry_lookup reg q)
    else
      handle_object_added now reg obj = reg := by
  rcases hmi : obj.modem with _ | mi
  · simp [modem_eligible, hmi, handle_object_added]
  · rcases hpp : mi.primary_port with _ | port
    · simp [modem_eligible, hmi, hpp, handle_object_added]
    · rcases h3 : obj.modem_3gpp with _ | m3
      · simp [modem_eligible, hmi, hpp, h3, handle_object_added]
      · have helig : modem_eligible obj = true := by
          simp [modem_eligible, hmi, hpp, h3]
        rw [if_pos helig]
        constructor
        · simp [handle_object_added, hmi, hpp, h3, registry_lookup]
        · intro q hq
          have hq2 : ¬ obj.path = q := fun hh => hq hh.symm
          simp [handle_object_added, hmi, hpp, h3, registry_lookup, hq2]
          exact registry_lookup_erase_other reg obj.path q hq

/-- C10: no operation of the kick state machine writes the stuck timestamp:
cancelling (also as part of freeing), scheduling, retrying, the timer
dispatch, all three completion callbacks, the sweep's kick start, a step
cycle, and a whole kick run (including reaching finish) leave it unchanged —
only `modem_registration_changed` writes it, so a modem that stays
idle/denied keeps its original onset time across an entire kick and remains
eligible at later sweeps. -/
theorem C10_kick_preserves_timestamp (tid tok : Nat) (m : ModemContext) (s : OpState)
    (ok : Bool) (outs : List Bool) :
    (modem_context_cancel_op m).timestamp = m.timestamp ∧
    (modem_context_free m).timestamp = m.timestamp ∧
    (modem_schedule_op_state tid m s).timestamp = m.timestamp ∧
    (modem_schedule_retry_op_state tid m).timestamp = m.timestamp ∧
    ((modem_op_state_run tid m).1).timestamp = m.timestamp ∧
    (modem_disable_ready tid ok m).timestamp = m.timestamp ∧
    (set_power_state_low_ready tid ok m).timestamp = m.timestamp ∧
    (modem_enable_ready tid ok m).timestamp = m.timestamp ∧
    ((sweep_start_kick tid tok m).1).timestamp = m.timestamp ∧
    (step_cycle tid m ok).timestamp = m.timestamp ∧
    (kick_steps tid m outs).timestamp = m.timestamp ∧
    (kick_run tid m outs).timestamp = m.timestamp := by
  refine ⟨rfl, rfl, rfl, retry_timestamp_eq tid m, run_timestamp_eq tid m, ?_, ?_, ?_,
    ?_, step_cycle_timestamp tid m ok, kick_steps_timestamp tid outs m,
    kick_run_timestamp tid outs m⟩
  · cases ok <;> simp [modem_disable_ready, retry_timestamp_eq]
  · cases ok <;> simp [set_power_state_low_ready, retry_timestamp_eq]
  · cases ok <;> simp [modem_enable_ready, retry_timestamp_eq]
  · simp [(sweep_start_kick_eq tid tok m).1]
